import Mathlib

/-!
Shallow embedding of the candidate-selection / ranking / pagination /
enrichment engine of the tattoo-bot database layer
(src/database/master_queries.py, src/database/common_queries.py,
src/database/models.py), together with proofs of its spec claims.

Tables are embedded as lists of rows (a snapshot of the store); each SQL
query of the source becomes a Lean function over that snapshot.  Where SQL
leaves row order unspecified (GROUP BY output, equal ORDER BY keys) the
embedding uses the snapshot (table) order, and ORDER BY is a stable sort on
its key, so every function is a deterministic refinement of the source.
-/

namespace TattooBot

/-- Modelled from the spec: config_data/config.py is not part of the staged
files.  The reserved wildcard style id ("Все стили"); the doc comment of
db_utils.validate_style_ids records that the wildcard choice is stored as
the list holding exactly this id. -/
def NUMBER_ALL_STYLES : Int := 0

/-- Modelled from the spec: config_data/config.py is not part of the staged
files.  Tattoo-type token "цветная" (Color) of the data model documented in
models.py; only its distinctness from the other two tokens is used. -/
def TATTOO_TYPE_COLOR : String := "цветная"

/-- Modelled from the spec: tattoo-type token "одноцветная" (Monochrome). -/
def TATTOO_TYPE_MONOCHROME : String := "одноцветная"

/-- Modelled from the spec: tattoo-type token "оба варианта" (Both). -/
def TATTOO_TYPE_BOTH : String := "оба варианта"

/-- Row of table `master` (models.py, class Master).  Columns the embedded
operations never read (username, master_url, phone_number, flags other than
is_blocked) are omitted; date_of_reg is an abstract integer timestamp. -/
structure Master where
  master_id : Int
  name : String
  city : String
  about_master : String
  tattoo_type : String
  is_blocked : Bool
  date_of_reg : Int
  deriving Repr, DecidableEq

/-- Row of table `client` (models.py, class Client), restricted to the
columns the ranking engine reads. -/
structure Client where
  client_id : Int
  name : String
  city : String
  tattoo_type : String
  deriving Repr, DecidableEq

/-- Row of table `likes` (models.py, class Likes); the UniqueConstraint on
(client_id, master_id) is a property proved of create_like, not a field. -/
structure Like where
  client_id : Int
  master_id : Int
  deriving Repr, DecidableEq

/-- Row of table `client_styles` (models.py, class ClientStyles). -/
structure ClientStyleRow where
  client_id : Int
  style_id : Int
  deriving Repr, DecidableEq

/-- Row of table `master_styles` (models.py, class MasterStyles). -/
structure MasterStyleRow where
  master_id : Int
  style_id : Int
  deriving Repr, DecidableEq

/-- Row of table `styles` (models.py, class Styles). -/
structure StyleRow where
  style_id : Int
  style_name : String
  deriving Repr, DecidableEq

/-- Row of table `master_photos` (models.py, class MasterPhotos). -/
structure MasterPhotoRow where
  master_id : Int
  photo_path : String
  deriving Repr, DecidableEq

/-- One snapshot of the profile store: the tables read by the engine. -/
structure DB where
  clients : List Client
  masters : List Master
  client_styles : List ClientStyleRow
  master_styles : List MasterStyleRow
  likes : List Like
  styles : List StyleRow
  master_photos : List MasterPhotoRow
  deriving Repr, DecidableEq

/-- Well-formedness of a snapshot: primary keys of `master` and `client`
are unique (models.py declares both ids as primary keys). -/
def DB.WF (db : DB) : Prop :=
  (db.masters.map (fun m => m.master_id)).Nodup
    ∧ (db.clients.map (fun c => c.client_id)).Nodup

instance (db : DB) : Decidable db.WF := by
  unfold DB.WF
  infer_instance

/-- COUNT(Likes.master_id) of the outer joins in the ranking queries: the
number of like rows naming the provider, zero if none. -/
def likeCount (db : DB) (mid : Int) : Nat :=
  db.likes.countP (fun l => l.master_id == mid)

/-- The `filter_type` conjunct of the tier queries (master_queries.py lines
1127-1133, 1271-1277, 1412-1418) applied to one provider type: a Monochrome
requester excludes Color providers, a Color requester excludes Monochrome
providers, anything else (Both) excludes nobody. -/
def filter_type (client_type master_type : String) : Bool :=
  if client_type == TATTOO_TYPE_MONOCHROME then !(master_type == TATTOO_TYPE_COLOR)
  else if client_type == TATTOO_TYPE_COLOR then !(master_type == TATTOO_TYPE_MONOCHROME)
  else true

/-- The tuple fetched by get_client_info_and_styles (master_queries.py lines
969-1005): requester id, name, city, tattoo type and aggregated style ids. -/
structure ClientInfo where
  client_id : Int
  name : String
  city : String
  tattoo_type : String
  list_styles : List Int
  deriving Repr, DecidableEq

/-- get_client_info_and_styles (master_queries.py lines 969-1005): an inner
join of `client` with `client_styles` on the requester id, aggregated into
one tuple.  A requester with no style rows joins to nothing, so fetchone
yields nothing and the function reports the requester as absent. -/
def get_client_info_and_styles (db : DB) (client_id : Int) : Option ClientInfo :=
  match db.clients.find? (fun c => c.client_id == client_id) with
  | none => none
  | some c =>
      let sts := (db.client_styles.filter (fun r => r.client_id == client_id)).map
        (fun r => r.style_id)
      if sts.isEmpty then none
      else some ⟨c.client_id, c.name, c.city, c.tattoo_type, sts⟩

/-- City scope of a tier query: `Master.city == city` for the same-city
tiers (all, city), `Master.city != city` for tier none. -/
def city_scope (same_city : Bool) (city : String) (m : Master) : Bool :=
  if same_city then m.city == city else !(m.city == city)

/-- The `all_master_client` subquery shared verbatim by the three tier
functions (master_queries.py lines 1135-1182, 1279-1323, 1420-1465), with
the city (in)equality as the only difference.  Wildcard requester: DISTINCT
master ids of the join of `master` with `master_styles` filtered by type,
not-blocked and city scope.  Otherwise: DISTINCT master ids whose style rows
meet the requester's chosen styles (no blocked filter here in the source),
UNION ALL the masters holding the wildcard style id themselves. -/
def all_master_client (db : DB) (client_id : Int) (city tattoo : String)
    (list_styles : List Int) (same_city : Bool) : List Int :=
  if list_styles == [NUMBER_ALL_STYLES] then
    ((db.master_styles.filter (fun r =>
        db.masters.any (fun m => m.master_id == r.master_id
          && filter_type tattoo m.tattoo_type && !m.is_blocked
          && city_scope same_city city m))).map (fun r => r.master_id)).dedup
  else
    let matching :=
      ((db.master_styles.filter (fun r =>
          db.masters.any (fun m => m.master_id == r.master_id
            && filter_type tattoo m.tattoo_type && city_scope same_city city m)
          && db.client_styles.any (fun cs =>
            cs.client_id == client_id && cs.style_id == r.style_id))).map
        (fun r => r.master_id)).dedup
    let universal :=
      (db.master_styles.filter (fun r => r.style_id == NUMBER_ALL_STYLES
          && db.masters.any (fun m => m.master_id == r.master_id
            && filter_type tattoo m.tattoo_type
            && city_scope same_city city m))).map (fun r => r.master_id)
    matching ++ universal

/-- One tuple of the tier SELECT (master_id, name, city, about_master,
count_likes). -/
structure MasterRow where
  master_id : Int
  name : String
  city : String
  about_master : String
  likes : Nat
  deriving Repr, DecidableEq

/-- The grouped outer-join row of one master in the ranking SELECTs. -/
def master_row (db : DB) (m : Master) : MasterRow :=
  ⟨m.master_id, m.name, m.city, m.about_master, likeCount db m.master_id⟩

/-- Stable insertion into a list kept in descending like-count order. -/
def insertDesc (x : MasterRow) : List MasterRow → List MasterRow
  | [] => [x]
  | y :: ys => if y.likes ≤ x.likes then x :: y :: ys else y :: insertDesc x ys

/-- ORDER BY count_likes DESC of the ranking queries, as a stable sort over
the snapshot order (the source states no tie-break, so equal counts keep the
unspecified SQL order, modelled as snapshot order). -/
def sortDesc : List MasterRow → List MasterRow
  | [] => []
  | x :: xs => insertDesc x (sortDesc xs)

/-- The fetchmany paging loop shared by all views (e.g. master_queries.py
lines 1207-1210): number_iter batches of len_return rows are fetched and the
last batch kept, so len_index is an end index.  Zero iterations keep the
initial empty list; a batch past the end of the sequence is empty. -/
def paginate (rows : List MasterRow) (len_index len_return : Nat) : List MasterRow :=
  let number_iter := len_index / len_return + (if len_index % len_return == 0 then 0 else 1)
  if number_iter == 0 then []
  else (rows.drop ((number_iter - 1) * len_return)).take len_return

/-- Separator used by the string_agg calls and the subsequent split. -/
def SEMI : String := ";"

/-- Python str.split on ";" (used on every aggregated string), written as
structural recursion over the characters so that it evaluates by rfl. -/
def split_semi_chars (acc : List Char) : List Char → List String
  | [] => [String.mk acc.reverse]
  | c :: cs =>
      if c == ';' then String.mk acc.reverse :: split_semi_chars [] cs
      else split_semi_chars (c :: acc) cs

/-- Python "s.split(';')". -/
def split_semi (s : String) : List String :=
  split_semi_chars [] s.data

/-- The per-master photo paths, in table order (the string_agg of
MasterPhotos.photo_path groups by master_id; order inside a group is the
snapshot order). -/
def photo_rows (db : DB) (mid : Int) : List String :=
  (db.master_photos.filter (fun p => p.master_id == mid)).map (fun p => p.photo_path)

/-- The per-master style names: MasterStyles joined to Styles on style_id,
aggregated in table order. -/
def style_name_rows (db : DB) (mid : Int) : List String :=
  (db.master_styles.filter (fun r => r.master_id == mid)).flatMap
    (fun r => (db.styles.filter (fun s => s.style_id == r.style_id)).map
      (fun s => s.style_name))

/-- Aggregate-then-split step of the enrichment helpers: a master absent
from the GROUP BY dict (no rows) gets the default empty list, one present
gets its string_agg split on ";". -/
def agg_split (names : List String) : List String :=
  if names.isEmpty then [] else split_semi (String.intercalate SEMI names)

/-- get_master_list_photos (master_queries.py lines 1013-1053): for each id
of the page, the split aggregated photo paths, empty list when the master
has no photo rows. -/
def get_master_list_photos (db : DB) (ids : List Int) : List (Int × List String) :=
  ids.map (fun mid => (mid, agg_split (photo_rows db mid)))

/-- get_master_list_selected_styles (master_queries.py lines 1056-1098):
for each id of the page, the split aggregated style names, empty list when
the join of the master with Styles is empty. -/
def get_master_list_selected_styles (db : DB) (ids : List Int) : List (Int × List String) :=
  ids.map (fun mid => (mid, agg_split (style_name_rows db mid)))

/-- Python dict lookup over the association lists the two helpers return.
Every key looked up by the tier views is a page id, hence present; the
default branch is unreachable there. -/
def lookupD (assoc : List (Int × List String)) (k : Int) : List String :=
  match assoc.find? (fun p => p.1 == k) with
  | some p => p.2
  | none => []

/-- The enriched result record of every view (the spec's ProviderCard). -/
structure MasterCard where
  master_id : Int
  name : String
  city : String
  about_master : String
  styles : List String
  photo_path : List String
  likes : Nat
  deriving Repr, DecidableEq

/-- The dict-building tail shared by the tier views and the new-registered
view (e.g. master_queries.py lines 1211-1235): batch-fetch styles and photos
keyed by the page ids, then build one card per fetched row. -/
def enrich_page (db : DB) (page : List MasterRow) : List MasterCard :=
  let ids := page.map (fun r => r.master_id)
  let photos := get_master_list_photos db ids
  let styles := get_master_list_selected_styles db ids
  page.map (fun r =>
    ⟨r.master_id, r.name, r.city, r.about_master, lookupD styles r.master_id,
      lookupD photos r.master_id, r.likes⟩)

/-- WHERE clause of the tier-all ranking SELECT (master_queries.py lines
1193-1200): own city, not blocked, member of all_master_client. -/
def selected_masters_all (db : DB) (client_id : Int) (info : ClientInfo) : List Master :=
  let cand := all_master_client db client_id info.city info.tattoo_type info.list_styles true
  db.masters.filter (fun m =>
    m.city == info.city && !m.is_blocked && cand.contains m.master_id)

/-- WHERE clause of the tier-city ranking SELECT (master_queries.py lines
1334-1341): own city, not blocked, NOT a member of all_master_client. -/
def selected_masters_city (db : DB) (client_id : Int) (info : ClientInfo) : List Master :=
  let cand := all_master_client db client_id info.city info.tattoo_type info.list_styles true
  db.masters.filter (fun m =>
    m.city == info.city && !m.is_blocked && !(cand.contains m.master_id))

/-- WHERE clause of the tier-none ranking SELECT (master_queries.py lines
1476-1483): other city, not blocked, member of the other-city
all_master_client. -/
def selected_masters_none (db : DB) (client_id : Int) (info : ClientInfo) : List Master :=
  let cand := all_master_client db client_id info.city info.tattoo_type info.list_styles false
  db.masters.filter (fun m =>
    !(m.city == info.city) && !m.is_blocked && cand.contains m.master_id)

/-- Master ids of the tier-all candidate set (before ranking). -/
def tier_all_ids (db : DB) (client_id : Int) : List Int :=
  match get_client_info_and_styles db client_id with
  | none => []
  | some info => (selected_masters_all db client_id info).map (fun m => m.master_id)

/-- Master ids of the tier-city candidate set (before ranking). -/
def tier_city_ids (db : DB) (client_id : Int) : List Int :=
  match get_client_info_and_styles db client_id with
  | none => []
  | some info => (selected_masters_city db client_id info).map (fun m => m.master_id)

/-- Master ids of the tier-none candidate set (before ranking). -/
def tier_none_ids (db : DB) (client_id : Int) : List Int :=
  match get_client_info_and_styles db client_id with
  | none => []
  | some info => (selected_masters_none db client_id info).map (fun m => m.master_id)

/-- The full ranked tier-all sequence (the SELECT of master_queries.py lines
1185-1203 before any fetchmany). -/
def ranked_rows_all (db : DB) (client_id : Int) : List MasterRow :=
  match get_client_info_and_styles db client_id with
  | none => []
  | some info => sortDesc ((selected_masters_all db client_id info).map (master_row db))

/-- The full ranked tier-city sequence (master_queries.py lines 1326-1344). -/
def ranked_rows_city (db : DB) (client_id : Int) : List MasterRow :=
  match get_client_info_and_styles db client_id with
  | none => []
  | some info => sortDesc ((selected_masters_city db client_id info).map (master_row db))

/-- The full ranked tier-none sequence (master_queries.py lines 1467-1486). -/
def ranked_rows_none (db : DB) (client_id : Int) : List MasterRow :=
  match get_client_info_and_styles db client_id with
  | none => []
  | some info => sortDesc ((selected_masters_none db client_id info).map (master_row db))

/-- get_master_ranking_by_like_all (master_queries.py lines 1101-1242):
requester lookup, candidate selection, ranking, fetchmany paging,
batched enrichment. -/
def get_master_ranking_by_like_all (db : DB) (client_id : Int)
    (len_index len_return : Nat) : List MasterCard :=
  enrich_page db (paginate (ranked_rows_all db client_id) len_index len_return)

/-- get_master_ranking_by_like_city (master_queries.py lines 1245-1383). -/
def get_master_ranking_by_like_city (db : DB) (client_id : Int)
    (len_index len_return : Nat) : List MasterCard :=
  enrich_page db (paginate (ranked_rows_city db client_id) len_index len_return)

/-- get_master_ranking_by_like_none (master_queries.py lines 1386-1525). -/
def get_master_ranking_by_like_none (db : DB) (client_id : Int)
    (len_index len_return : Nat) : List MasterCard :=
  enrich_page db (paginate (ranked_rows_none db client_id) len_index len_return)

/-- Tier token "all". -/
def TIER_ALL : String := "all"

/-- Tier token "city". -/
def TIER_CITY : String := "city"

/-- Tier token "none". -/
def TIER_NONE : String := "none"

/-- get_master_ranking_by_like_with_except (master_queries.py lines
1528-1603): dispatch on the tier token, empty list for an unknown token. -/
def get_master_ranking_by_like_with_except (db : DB) (client_id : Int)
    (len_index len_return : Nat) (filtered : String) : List MasterCard :=
  if !(filtered == TIER_ALL || filtered == TIER_CITY || filtered == TIER_NONE) then []
  else if filtered == TIER_ALL then
    get_master_ranking_by_like_all db client_id len_index len_return
  else if filtered == TIER_CITY then
    get_master_ranking_by_like_city db client_id len_index len_return
  else
    get_master_ranking_by_like_none db client_id len_index len_return

/-- Modelled from the spec: the presentation layer that calls the tier
dispatcher is not among the staged files; the doc comment of
get_master_ranking_by_like_with_except shows len_index is the end index of
the requested window, so the boundary operation rankCandidates(requester,
tier, offset, pageSize) calls it with len_index = offset + pageSize and
len_return = pageSize. -/
def rankCandidates (db : DB) (requester_id : Int) (tier : String)
    (offset pageSize : Nat) : List MasterCard :=
  get_master_ranking_by_like_with_except db requester_id (offset + pageSize) pageSize tier

/-- create_like (common_queries.py lines 48-72) over the Likes uniqueness
constraint of models.py lines 175-178: inserting an existing
(client_id, master_id) pair raises IntegrityError, caught and reported as
false with the store unchanged; otherwise the row is added and true
returned. -/
def create_like (db : DB) (client_id master_id : Int) : Bool × DB :=
  if db.likes.any (fun l => l.client_id == client_id && l.master_id == master_id) then
    (false, db)
  else
    (true, { db with likes := db.likes ++ [⟨client_id, master_id⟩] })

/-- The ranked sequence of the liked-by-requester view (master_queries.py
lines 1637-1657): providers the requester has liked, not blocked, ordered by
like count descending. -/
def liked_rows (db : DB) (client_id : Int) : List MasterRow :=
  let like_id_list := (db.likes.filter (fun l => l.client_id == client_id)).map
    (fun l => l.master_id)
  sortDesc ((db.masters.filter (fun m =>
    like_id_list.contains m.master_id && !m.is_blocked)).map (master_row db))

/-- The card-building loop of get_master_liked_client (master_queries.py
lines 1696-1707): the styles dict is indexed by the page ids and the photo
list by the loop position.  A missing dict key (a page master with no style
rows) or a photo list shorter than the page (a page master with no photo
rows) raises in the source; the surrounding except swallows it and the
function falls through returning None, modelled here as none. -/
def build_liked_cards (style_dict : List (Int × List String))
    (master_foto_list : List (List String)) :
    Nat → List MasterRow → Option (List MasterCard)
  | _, [] => some []
  | i, r :: rs =>
      match style_dict.find? (fun p => p.1 == r.master_id), master_foto_list[i]? with
      | some st, some ph =>
          match build_liked_cards style_dict master_foto_list (i + 1) rs with
          | some cs =>
              some (⟨r.master_id, r.name, r.city, r.about_master, st.2, ph, r.likes⟩ :: cs)
          | none => none
      | _, _ => none

/-- get_master_liked_client (master_queries.py lines 1606-1714).  Unlike the
other views it builds its enrichment inline: the photo aggregation (lines
1666-1680) selects only the aggregated string, so its result is a bare list
holding one entry per page master that has photo rows, and the style dict
(lines 1681-1693) holds only page masters whose join with Styles is
nonempty. -/
def get_master_liked_client (db : DB) (client_id : Int)
    (len_index len_return : Nat) : Option (List MasterCard) :=
  let page := paginate (liked_rows db client_id) len_index len_return
  let ids := page.map (fun r => r.master_id)
  let masters_with_photos :=
    ((db.master_photos.filter (fun p => ids.contains p.master_id)).map
      (fun p => p.master_id)).dedup
  let master_foto_list := masters_with_photos.map (fun mid => agg_split (photo_rows db mid))
  let masters_with_styles :=
    ((db.master_styles.filter (fun r => ids.contains r.master_id
        && db.styles.any (fun s => s.style_id == r.style_id))).map
      (fun r => r.master_id)).dedup
  let style_dict := masters_with_styles.map (fun mid => (mid, agg_split (style_name_rows db mid)))
  build_liked_cards style_dict master_foto_list 0 page

/-- One week, as the datetime.timedelta(weeks=1) of the source over integer
second timestamps. -/
def WEEK_SECONDS : Int := 604800

/-- The ranked sequence of the newly-registered view (master_queries.py
lines 1748-1778): masters of the requester's city registered within the
trailing week, not blocked, ordered by like count descending.  The
requester-city scalar subquery of an absent requester is NULL and matches no
master. -/
def new_registered_rows (db : DB) (now : Int) (client_id : Int) : List MasterRow :=
  let day_ago := now - WEEK_SECONDS
  let reg_day_ago : List Int :=
    match db.clients.find? (fun c => c.client_id == client_id) with
    | none => []
    | some c => (db.masters.filter (fun m =>
        m.city == c.city && day_ago < m.date_of_reg)).map (fun m => m.master_id)
  sortDesc ((db.masters.filter (fun m =>
    reg_day_ago.contains m.master_id && !m.is_blocked)).map (master_row db))

/-- get_master_new_registered (master_queries.py lines 1717-1816).  The
early return on an empty batch (lines 1784-1785) is equivalent to keeping
the final empty batch, since batches past the end stay empty. -/
def get_master_new_registered (db : DB) (now : Int) (client_id : Int)
    (len_index len_return : Nat) : List MasterCard :=
  enrich_page db (paginate (new_registered_rows db now client_id) len_index len_return)

/-- The descending-like-count page order every view is claimed to satisfy. -/
def pageSorted (cards : List MasterCard) : Prop :=
  cards.Pairwise (fun a b => b.likes ≤ a.likes)

theorem mem_insertDesc {x a : MasterRow} {l : List MasterRow} :
    a ∈ insertDesc x l ↔ a = x ∨ a ∈ l := by
  induction l with
  | nil => simp [insertDesc]
  | cons y ys ih =>
      by_cases hy : y.likes ≤ x.likes
      · simp [insertDesc, hy]
      · simp [insertDesc, hy, ih]
        tauto

theorem pairwise_insertDesc {x : MasterRow} {l : List MasterRow}
    (h : l.Pairwise (fun a b => b.likes ≤ a.likes)) :
    (insertDesc x l).Pairwise (fun a b => b.likes ≤ a.likes) := by
  induction l with
  | nil => simp [insertDesc]
  | cons y ys ih =>
      rw [List.pairwise_cons] at h
      by_cases hy : y.likes ≤ x.likes
      · rw [insertDesc, if_pos hy, List.pairwise_cons]
        refine ⟨?_, List.pairwise_cons.mpr h⟩
        intro b hb
        rcases List.mem_cons.mp hb with hb | hb
        · exact hb ▸ hy
        · exact le_trans (h.1 b hb) hy
      · rw [insertDesc, if_neg hy, List.pairwise_cons]
        refine ⟨?_, ih h.2⟩
        intro b hb
        rcases mem_insertDesc.mp hb with hb | hb
        · exact hb ▸ Nat.le_of_lt (Nat.lt_of_not_le hy)
        · exact h.1 b hb

theorem pairwise_sortDesc (l : List MasterRow) :
    (sortDesc l).Pairwise (fun a b => b.likes ≤ a.likes) := by
  induction l with
  | nil => simp [sortDesc]
  | cons x xs ih => exact pairwise_insertDesc ih

theorem mem_sortDesc {a : MasterRow} {l : List MasterRow} :
    a ∈ sortDesc l ↔ a ∈ l := by
  induction l with
  | nil => simp [sortDesc]
  | cons x xs ih => simp [sortDesc, mem_insertDesc, ih]

theorem paginate_eq (rows : List MasterRow) (len_index len_return : Nat) :
    paginate rows len_index len_return =
      if (len_index / len_return + (if len_index % len_return == 0 then 0 else 1)) = 0
      then []
      else
        (rows.drop (((len_index / len_return
          + (if len_index % len_return == 0 then 0 else 1)) - 1) * len_return)).take
          len_return := by
  unfold paginate
  simp only [beq_iff_eq]

theorem paginate_sublist (rows : List MasterRow) (len_index len_return : Nat) :
    List.Sublist (paginate rows len_index len_return) rows := by
  rw [paginate_eq]
  repeat' split
  any_goals exact List.nil_sublist rows
  all_goals exact (List.take_sublist _ _).trans (List.drop_sublist _ _)

theorem pairwise_paginate {rows : List MasterRow} (len_index len_return : Nat)
    (h : rows.Pairwise (fun a b => b.likes ≤ a.likes)) :
    (paginate rows len_index len_return).Pairwise (fun a b => b.likes ≤ a.likes) :=
  h.sublist (paginate_sublist rows len_index len_return)

theorem mem_paginate {rows : List MasterRow} {len_index len_return : Nat} {r : MasterRow}
    (h : r ∈ paginate rows len_index len_return) : r ∈ rows :=
  (paginate_sublist rows len_index len_return).subset h

theorem paginate_window (rows : List MasterRow) (q len_return : Nat) (h : 0 < len_return) :
    paginate rows (q * len_return + len_return) len_return =
      (rows.drop (q * len_return)).take len_return := by
  unfold paginate
  have hq : q * len_return + len_return = (q + 1) * len_return := by ring
  rw [hq, Nat.mul_div_cancel _ h, Nat.mul_mod_left]
  simp

theorem enrich_page_map_id (db : DB) (page : List MasterRow) :
    (enrich_page db page).map (fun c => c.master_id) = page.map (fun r => r.master_id) := by
  simp [enrich_page]

theorem pairwise_enrich_page (db : DB) (page : List MasterRow)
    (h : page.Pairwise (fun a b => b.likes ≤ a.likes)) :
    pageSorted (enrich_page db page) := by
  unfold pageSorted enrich_page
  rw [List.pairwise_map]
  exact h

theorem mem_enrich_page {db : DB} {page : List MasterRow} {c : MasterCard}
    (h : c ∈ enrich_page db page) :
    ∃ r ∈ page, r.master_id = c.master_id ∧ r.likes = c.likes := by
  unfold enrich_page at h
  rcases List.mem_map.mp h with ⟨r, hr, hrc⟩
  exact ⟨r, hr, by rw [← hrc], by rw [← hrc]⟩

theorem mem_sortDesc_filter_map {db : DB} {p : Master → Bool} {r : MasterRow}
    (h : r ∈ sortDesc ((db.masters.filter p).map (master_row db))) :
    ∃ m ∈ db.masters, p m = true ∧ m.master_id = r.master_id := by
  rcases List.mem_map.mp (mem_sortDesc.mp h) with ⟨m, hm, hmr⟩
  rcases List.mem_filter.mp hm with ⟨hmem, hp⟩
  exact ⟨m, hmem, hp, by rw [← hmr]; rfl⟩

theorem mem_ranked_rows_all {db : DB} {client_id : Int} {r : MasterRow}
    (h : r ∈ ranked_rows_all db client_id) :
    ∃ m ∈ db.masters, m.is_blocked = false ∧ m.master_id = r.master_id := by
  unfold ranked_rows_all at h
  split at h
  · simp at h
  · rcases mem_sortDesc_filter_map h with ⟨m, hm, hp, hid⟩
    refine ⟨m, hm, ?_, hid⟩
    simp only [Bool.and_eq_true] at hp
    simpa using hp.1.2

theorem mem_ranked_rows_city {db : DB} {client_id : Int} {r : MasterRow}
    (h : r ∈ ranked_rows_city db client_id) :
    ∃ m ∈ db.masters, m.is_blocked = false ∧ m.master_id = r.master_id := by
  unfold ranked_rows_city at h
  split at h
  · simp at h
  · rcases mem_sortDesc_filter_map h with ⟨m, hm, hp, hid⟩
    refine ⟨m, hm, ?_, hid⟩
    simp only [Bool.and_eq_true] at hp
    simpa using hp.1.2

theorem mem_ranked_rows_none {db : DB} {client_id : Int} {r : MasterRow}
    (h : r ∈ ranked_rows_none db client_id) :
    ∃ m ∈ db.masters, m.is_blocked = false ∧ m.master_id = r.master_id := by
  unfold ranked_rows_none at h
  split at h
  · simp at h
  · rcases mem_sortDesc_filter_map h with ⟨m, hm, hp, hid⟩
    refine ⟨m, hm, ?_, hid⟩
    simp only [Bool.and_eq_true] at hp
    simpa using hp.1.2

theorem mem_liked_rows {db : DB} {client_id : Int} {r : MasterRow}
    (h : r ∈ liked_rows db client_id) :
    ∃ m ∈ db.masters, m.is_blocked = false ∧ m.master_id = r.master_id := by
  unfold liked_rows at h
  rcases mem_sortDesc_filter_map h with ⟨m, hm, hp, hid⟩
  simp only [Bool.and_eq_true] at hp
  exact ⟨m, hm, by simpa using hp.2, hid⟩

theorem mem_new_registered_rows {db : DB} {now client_id : Int} {r : MasterRow}
    (h : r ∈ new_registered_rows db now client_id) :
    ∃ m ∈ db.masters, m.is_blocked = false ∧ m.master_id = r.master_id := by
  unfold new_registered_rows at h
  rcases mem_sortDesc_filter_map h with ⟨m, hm, hp, hid⟩
  simp only [Bool.and_eq_true] at hp
  exact ⟨m, hm, by simpa using hp.2, hid⟩

theorem build_liked_cards_likes {style_dict : List (Int × List String)}
    {master_foto_list : List (List String)} :
    ∀ {i : Nat} {rs : List MasterRow} {cs : List MasterCard},
      build_liked_cards style_dict master_foto_list i rs = some cs →
      cs.map (fun c => c.likes) = rs.map (fun r => r.likes) := by
  intro i rs
  induction rs generalizing i with
  | nil => intro cs h; simp [build_liked_cards] at h; simp [← h]
  | cons r rs ih =>
      intro cs h
      unfold build_liked_cards at h
      rcases hfind : style_dict.find? (fun p => p.1 == r.master_id) with _ | st <;>
        rw [hfind] at h
      · simp at h
      · rcases hph : master_foto_list[i]? with _ | ph <;> rw [hph] at h
        · simp at h
        · rcases hrec : build_liked_cards style_dict master_foto_list (i + 1) rs with
            _ | cs2 <;> rw [hrec] at h
          · simp at h
          · rcases Option.some.inj h with rfl
            simp [ih hrec]

theorem mem_build_liked_cards {style_dict : List (Int × List String)}
    {master_foto_list : List (List String)} :
    ∀ {i : Nat} {rs : List MasterRow} {cs : List MasterCard} {c : MasterCard},
      build_liked_cards style_dict master_foto_list i rs = some cs →
      c ∈ cs → ∃ r ∈ rs, r.master_id = c.master_id := by
  intro i rs
  induction rs generalizing i with
  | nil =>
      intro cs c h hc
      simp [build_liked_cards] at h
      subst h
      simp at hc
  | cons r rs ih =>
      intro cs c h hc
      unfold build_liked_cards at h
      rcases hfind : style_dict.find? (fun p => p.1 == r.master_id) with _ | st <;>
        rw [hfind] at h
      · simp at h
      · rcases hph : master_foto_list[i]? with _ | ph <;> rw [hph] at h
        · simp at h
        · rcases hrec : build_liked_cards style_dict master_foto_list (i + 1) rs with
            _ | cs2 <;> rw [hrec] at h
          · simp at h
          · rcases Option.some.inj h with rfl
            rcases List.mem_cons.mp hc with rfl | hc2
            · exact ⟨r, List.mem_cons_self r rs, rfl⟩
            · rcases ih hrec hc2 with ⟨r2, hr2, hid⟩
              exact ⟨r2, List.mem_cons_of_mem r hr2, hid⟩

theorem paginate_nil (len_index len_return : Nat) :
    paginate [] len_index len_return = [] := by
  rw [paginate_eq]
  repeat' split
  all_goals simp

theorem enrich_page_nil (db : DB) : enrich_page db [] = [] := by
  simp [enrich_page]

theorem tiers_empty_of_info_none {db : DB} {client_id : Int}
    (hinfo : get_client_info_and_styles db client_id = none)
    (len_index len_return : Nat) (filtered : String) :
    get_master_ranking_by_like_with_except db client_id len_index len_return filtered = [] := by
  unfold get_master_ranking_by_like_with_except
  unfold get_master_ranking_by_like_all get_master_ranking_by_like_city
    get_master_ranking_by_like_none
  unfold ranked_rows_all ranked_rows_city ranked_rows_none
  rw [hinfo]
  simp [paginate_nil, enrich_page_nil]

/-- C5: the compatibility predicate derived from the requester's tattoo-type
preference excludes exactly the Color providers when the preference is
Monochrome, exactly the Monochrome providers when the preference is Color,
and nobody when the preference is Both; a provider of type Both is never
excluded, whatever the preference. -/
theorem claim_C5_filter_type_table (t : String) :
    (filter_type TATTOO_TYPE_MONOCHROME t = false ↔ t = TATTOO_TYPE_COLOR)
    ∧ (filter_type TATTOO_TYPE_COLOR t = false ↔ t = TATTOO_TYPE_MONOCHROME)
    ∧ filter_type TATTOO_TYPE_BOTH t = true
    ∧ (∀ p : String, filter_type p TATTOO_TYPE_BOTH = true) := by
  refine ⟨?_, ?_, ?_, ?_⟩
  · unfold filter_type
    rw [if_pos (by decide : (TATTOO_TYPE_MONOCHROME == TATTOO_TYPE_MONOCHROME) = true)]
    simp
  · unfold filter_type
    rw [if_neg (by decide),
      if_pos (by decide : (TATTOO_TYPE_COLOR == TATTOO_TYPE_COLOR) = true)]
    simp
  · unfold filter_type
    rw [if_neg (by decide), if_neg (by decide)]
  · intro p
    unfold filter_type
    split
    · decide
    · split
      · decide
      · rfl

/-- C7: likeProvider returns true and stores exactly one new row when the
(requester, provider) pair is absent; with the pair present it returns false
and leaves the stored likes unchanged; a repeat call after any call returns
false; at most one row per pair ever exists. -/
theorem claim_C7_like_idempotent (db : DB) (c m : Int) :
    ((create_like db c m).1 = true ↔ ¬ ∃ l ∈ db.likes, l.client_id = c ∧ l.master_id = m)
    ∧ ((¬ ∃ l ∈ db.likes, l.client_id = c ∧ l.master_id = m) →
        (create_like db c m).2.likes = db.likes ++ [⟨c, m⟩])
    ∧ ((∃ l ∈ db.likes, l.client_id = c ∧ l.master_id = m) →
        create_like db c m = (false, db))
    ∧ create_like (create_like db c m).2 c m = (false, (create_like db c m).2)
    ∧ (db.likes.countP (fun l => l.client_id == c && l.master_id == m) ≤ 1 →
        (create_like db c m).2.likes.countP
          (fun l => l.client_id == c && l.master_id == m) ≤ 1) := by
  have hiff : (db.likes.any (fun l => l.client_id == c && l.master_id == m) = true)
      ↔ ∃ l ∈ db.likes, l.client_id = c ∧ l.master_id = m := by
    simp [List.any_eq_true]
  by_cases h : ∃ l ∈ db.likes, l.client_id = c ∧ l.master_id = m
  · have hb : db.likes.any (fun l => l.client_id == c && l.master_id == m) = true :=
      hiff.mpr h
    refine ⟨by simp [create_like, hb, h], fun hn => absurd h hn, fun _ => by
      simp [create_like, hb], ?_, ?_⟩
    · simp [create_like, hb]
    · intro hcount
      simpa [create_like, hb] using hcount
  · have hb : db.likes.any (fun l => l.client_id == c && l.master_id == m) = false := by
      rw [← Bool.not_eq_true]
      exact fun hx => h (hiff.mp hx)
    have hzero : db.likes.countP (fun l => l.client_id == c && l.master_id == m) = 0 := by
      rw [List.countP_eq_zero]
      intro l hl
      simp only [Bool.and_eq_true, beq_iff_eq]
      exact fun hx => h ⟨l, hl, hx.1, hx.2⟩
    refine ⟨by simp [create_like, hb, h], fun _ => by simp [create_like, hb],
      fun hx => absurd hx h, ?_, ?_⟩
    · have hmem : create_like db c m =
          (true, { db with likes := db.likes ++ [⟨c, m⟩] }) := by
        simp [create_like, hb]
      rw [hmem]
      have hb2 : ({ db with likes := db.likes ++ [⟨c, m⟩] } : DB).likes.any
          (fun l => l.client_id == c && l.master_id == m) = true := by
        simp
      simp [create_like, hb2]
    · intro _
      have hmem : create_like db c m =
          (true, { db with likes := db.likes ++ [⟨c, m⟩] }) := by
        simp [create_like, hb]
      rw [hmem]
      simp [List.countP_append, hzero, List.countP_cons]

/-- C9: if no requester with the given id exists, rankCandidates returns the
empty list for every tier token, offset and page size (the embedding is a
total function, so no exception can be raised). -/
theorem claim_C9_missing_requester (db : DB) (client_id : Int)
    (offset pageSize : Nat) (tier : String)
    (h : db.clients.find? (fun c => c.client_id == client_id) = none) :
    rankCandidates db client_id tier offset pageSize = [] := by
  have hinfo : get_client_info_and_styles db client_id = none := by
    unfold get_client_info_and_styles
    rw [h]
  exact tiers_empty_of_info_none hinfo _ _ _

theorem claim_C9_witness :
    rankCandidates ⟨[], [], [], [], [], [], []⟩ 5 TIER_ALL 0 10 = [] :=
  claim_C9_missing_requester ⟨[], [], [], [], [], [], []⟩ 5 0 10 TIER_ALL rfl

/-- C10: a requester record that exists but has zero chosen-style rows is
treated exactly like a missing requester: the inner join of
get_client_info_and_styles yields nothing, and every tier returns the empty
list. -/
theorem claim_C10_styleless_requester (db : DB) (client_id : Int) (c : Client)
    (len_index len_return : Nat) (tier : String)
    (hc : db.clients.find? (fun x => x.client_id == client_id) = some c)
    (hs : db.client_styles.filter (fun s => s.client_id == client_id) = []) :
    get_client_info_and_styles db client_id = none
    ∧ get_master_ranking_by_like_with_except db client_id len_index len_return tier = [] := by
  have hinfo : get_client_info_and_styles db client_id = none := by
    unfold get_client_info_and_styles
    rw [hc, hs]
    simp
  exact ⟨hinfo, tiers_empty_of_info_none hinfo _ _ _⟩

theorem claim_C10_witness :
    get_client_info_and_styles ⟨[⟨1, "n", "c", "t"⟩], [], [], [], [], [], []⟩ 1 = none
    ∧ get_master_ranking_by_like_with_except
        ⟨[⟨1, "n", "c", "t"⟩], [], [], [], [], [], []⟩ 1 0 10 TIER_ALL = [] :=
  claim_C10_styleless_requester ⟨[⟨1, "n", "c", "t"⟩], [], [], [], [], [], []⟩ 1
    ⟨1, "n", "c", "t"⟩ 0 10 TIER_ALL rfl rfl

theorem ranked_rows_all_sorted (db : DB) (client_id : Int) :
    (ranked_rows_all db client_id).Pairwise (fun a b => b.likes ≤ a.likes) := by
  unfold ranked_rows_all
  split
  · simp
  · exact pairwise_sortDesc _

theorem ranked_rows_city_sorted (db : DB) (client_id : Int) :
    (ranked_rows_city db client_id).Pairwise (fun a b => b.likes ≤ a.likes) := by
  unfold ranked_rows_city
  split
  · simp
  · exact pairwise_sortDesc _

theorem ranked_rows_none_sorted (db : DB) (client_id : Int) :
    (ranked_rows_none db client_id).Pairwise (fun a b => b.likes ≤ a.likes) := by
  unfold ranked_rows_none
  split
  · simp
  · exact pairwise_sortDesc _

theorem liked_rows_sorted (db : DB) (client_id : Int) :
    (liked_rows db client_id).Pairwise (fun a b => b.likes ≤ a.likes) := by
  unfold liked_rows
  exact pairwise_sortDesc _

theorem new_registered_rows_sorted (db : DB) (now client_id : Int) :
    (new_registered_rows db now client_id).Pairwise (fun a b => b.likes ≤ a.likes) := by
  unfold new_registered_rows
  exact pairwise_sortDesc _

theorem pageSorted_of_rows_sorted (db : DB) (rows : List MasterRow)
    (len_index len_return : Nat) (h : rows.Pairwise (fun a b => b.likes ≤ a.likes)) :
    pageSorted (enrich_page db (paginate rows len_index len_return)) :=
  pairwise_enrich_page _ _ (pairwise_paginate _ _ h)

theorem pairwise_of_map_likes_eq {cs : List MasterCard} {rs : List MasterRow}
    (hmap : cs.map (fun c => c.likes) = rs.map (fun r => r.likes))
    (h : rs.Pairwise (fun a b => b.likes ≤ a.likes)) :
    cs.Pairwise (fun a b => b.likes ≤ a.likes) := by
  have h2 : (rs.map (fun r => r.likes)).Pairwise (fun a b => b ≤ a) :=
    List.pairwise_map.mpr h
  rw [← hmap] at h2
  exact List.pairwise_map.mp h2

/-- C1 (amended): every page returned by the ranking operations (the tier
dispatcher for any token, the liked-by-requester view, the newly-registered
view) is ordered by like count descending, a provider with no likes counting
as zero.  The source orders only by the count: equal counts keep the
unspecified SQL order (snapshot order in this embedding), not ascending
provider id — see the counterexample. -/
theorem claim_C1_pages_sorted_by_likes (db : DB) (client_id : Int)
    (len_index len_return : Nat) (tier : String) (now : Int) :
    pageSorted (get_master_ranking_by_like_with_except db client_id len_index len_return tier)
    ∧ ((get_master_liked_client db client_id len_index len_return).getD []).Pairwise
        (fun a b => b.likes ≤ a.likes)
    ∧ pageSorted (get_master_new_registered db now client_id len_index len_return) := by
  refine ⟨?_, ?_, ?_⟩
  · unfold get_master_ranking_by_like_with_except
    split
    · exact List.Pairwise.nil
    · split
      · exact pageSorted_of_rows_sorted _ _ _ _ (ranked_rows_all_sorted db client_id)
      · split
        · exact pageSorted_of_rows_sorted _ _ _ _ (ranked_rows_city_sorted db client_id)
        · exact pageSorted_of_rows_sorted _ _ _ _ (ranked_rows_none_sorted db client_id)
  · cases hres : get_master_liked_client db client_id len_index len_return with
    | none => simp
    | some cs =>
        simp only [Option.getD_some]
        have hb : build_liked_cards
            ((((db.master_styles.filter (fun r =>
                ((paginate (liked_rows db client_id) len_index len_return).map
                  (fun r => r.master_id)).contains r.master_id
                && db.styles.any (fun s => s.style_id == r.style_id))).map
              (fun r => r.master_id)).dedup).map
                (fun mid => (mid, agg_split (style_name_rows db mid))))
            ((((db.master_photos.filter (fun p =>
                ((paginate (liked_rows db client_id) len_index len_return).map
                  (fun r => r.master_id)).contains p.master_id)).map
              (fun p => p.master_id)).dedup).map (fun mid => agg_split (photo_rows db mid)))
            0 (paginate (liked_rows db client_id) len_index len_return) = some cs := hres
        exact pairwise_of_map_likes_eq (build_liked_cards_likes hb)
          (pairwise_paginate _ _ (liked_rows_sorted db client_id))
  · exact pageSorted_of_rows_sorted _ _ _ _ (new_registered_rows_sorted db now client_id)

/-- Counterexample to C1 as stated: a snapshot holding two never-liked
masters stored in descending id order.  Both appear with like count zero and
the page keeps the snapshot order [2, 1], so the claimed ascending-id
tie-break does not hold of the source. -/
def dbTie : DB :=
  { clients := [⟨1, "R", "B", TATTOO_TYPE_BOTH⟩]
    masters :=
      [⟨2, "M2", "B", "a", TATTOO_TYPE_BOTH, false, 0⟩,
       ⟨1, "M1", "B", "a", TATTOO_TYPE_BOTH, false, 0⟩]
    client_styles := [⟨1, 0⟩]
    master_styles := [⟨2, 1⟩, ⟨1, 1⟩]
    likes := []
    styles := [⟨1, "S"⟩]
    master_photos := [] }

/-- C1 counterexample: on dbTie the tier-all page is [2, 1] with equal like
counts, so the pairwise order claimed by the spec (descending count with
ascending id on ties) fails at this concrete input. -/
theorem claim_C1_counterexample :
    (rankCandidates dbTie 1 TIER_ALL 0 10).map (fun c => (c.master_id, c.likes))
        = [(2, 0), (1, 0)]
    ∧ ¬ (rankCandidates dbTie 1 TIER_ALL 0 10).Pairwise
        (fun a b => b.likes < a.likes ∨ (a.likes = b.likes ∧ a.master_id < b.master_id)) := by
  constructor
  · decide
  · decide

theorem card_origin_all {db : DB} {client_id : Int} {len_index len_return : Nat}
    {c : MasterCard} (h : c ∈ get_master_ranking_by_like_all db client_id len_index len_return) :
    ∃ m ∈ db.masters, m.is_blocked = false ∧ m.master_id = c.master_id := by
  rcases mem_enrich_page h with ⟨row, hrow, hid, _⟩
  rcases mem_ranked_rows_all (mem_paginate hrow) with ⟨m, hm, hb, hid2⟩
  exact ⟨m, hm, hb, by rw [hid2, hid]⟩

theorem card_origin_city {db : DB} {client_id : Int} {len_index len_return : Nat}
    {c : MasterCard} (h : c ∈ get_master_ranking_by_like_city db client_id len_index len_return) :
    ∃ m ∈ db.masters, m.is_blocked = false ∧ m.master_id = c.master_id := by
  rcases mem_enrich_page h with ⟨row, hrow, hid, _⟩
  rcases mem_ranked_rows_city (mem_paginate hrow) with ⟨m, hm, hb, hid2⟩
  exact ⟨m, hm, hb, by rw [hid2, hid]⟩

theorem card_origin_none {db : DB} {client_id : Int} {len_index len_return : Nat}
    {c : MasterCard} (h : c ∈ get_master_ranking_by_like_none db client_id len_index len_return) :
    ∃ m ∈ db.masters, m.is_blocked = false ∧ m.master_id = c.master_id := by
  rcases mem_enrich_page h with ⟨row, hrow, hid, _⟩
  rcases mem_ranked_rows_none (mem_paginate hrow) with ⟨m, hm, hb, hid2⟩
  exact ⟨m, hm, hb, by rw [hid2, hid]⟩

theorem card_origin_new {db : DB} {now client_id : Int} {len_index len_return : Nat}
    {c : MasterCard} (h : c ∈ get_master_new_registered db now client_id len_index len_return) :
    ∃ m ∈ db.masters, m.is_blocked = false ∧ m.master_id = c.master_id := by
  rcases mem_enrich_page h with ⟨row, hrow, hid, _⟩
  rcases mem_new_registered_rows (mem_paginate hrow) with ⟨m, hm, hb, hid2⟩
  exact ⟨m, hm, hb, by rw [hid2, hid]⟩

theorem card_origin_with_except {db : DB} {client_id : Int} {len_index len_return : Nat}
    {tier : String} {c : MasterCard}
    (h : c ∈ get_master_ranking_by_like_with_except db client_id len_index len_return tier) :
    ∃ m ∈ db.masters, m.is_blocked = false ∧ m.master_id = c.master_id := by
  unfold get_master_ranking_by_like_with_except at h
  split at h
  · simp at h
  · split at h
    · exact card_origin_all h
    · split at h
      · exact card_origin_city h
      · exact card_origin_none h

theorem card_origin_liked {db : DB} {client_id : Int} {len_index len_return : Nat}
    {c : MasterCard} (h : c ∈ (get_master_liked_client db client_id len_index len_return).getD []) :
    ∃ m ∈ db.masters, m.is_blocked = false ∧ m.master_id = c.master_id := by
  cases hres : get_master_liked_client db client_id len_index len_return with
  | none => rw [hres] at h; simp at h
  | some cs =>
      rw [hres] at h
      simp only [Option.getD_some] at h
      have hb : build_liked_cards
          ((((db.master_styles.filter (fun r =>
              ((paginate (liked_rows db client_id) len_index len_return).map
                (fun r => r.master_id)).contains r.master_id
              && db.styles.any (fun s => s.style_id == r.style_id))).map
            (fun r => r.master_id)).dedup).map
              (fun mid => (mid, agg_split (style_name_rows db mid))))
          ((((db.master_photos.filter (fun p =>
              ((paginate (liked_rows db client_id) len_index len_return).map
                (fun r => r.master_id)).contains p.master_id)).map
            (fun p => p.master_id)).dedup).map (fun mid => agg_split (photo_rows db mid)))
          0 (paginate (liked_rows db client_id) len_index len_return) = some cs := hres
      rcases mem_build_liked_cards hb h with ⟨row, hrow, hid⟩
      rcases mem_liked_rows (mem_paginate hrow) with ⟨m, hm, hbl, hid2⟩
      exact ⟨m, hm, hbl, by rw [hid2, hid]⟩

/-- C4: under unique master ids, a provider whose blocked flag is true never
appears in any returned result list: not in any tier of the dispatcher, not
in the liked-by-requester view, not in the newly-registered view. -/
theorem claim_C4_blocked_never_appears (db : DB) (client_id : Int)
    (len_index len_return : Nat) (tier : String) (now : Int) (m : Master) (c : MasterCard)
    (hwf : db.WF) (hm : m ∈ db.masters) (hblocked : m.is_blocked = true) :
    (c ∈ get_master_ranking_by_like_with_except db client_id len_index len_return tier →
      c.master_id ≠ m.master_id)
    ∧ (c ∈ (get_master_liked_client db client_id len_index len_return).getD [] →
      c.master_id ≠ m.master_id)
    ∧ (c ∈ get_master_new_registered db now client_id len_index len_return →
      c.master_id ≠ m.master_id) := by
  have finish2 : ∀ m2, m2 ∈ db.masters → m2.is_blocked = false →
      m2.master_id = c.master_id → c.master_id ≠ m.master_id := by
    intro m2 hm2 hb2 hid he
    have : m2 = m := List.inj_on_of_nodup_map hwf.1 hm2 hm (by rw [hid, he])
    rw [this, hblocked] at hb2
    exact absurd hb2 (by simp)
  refine ⟨?_, ?_, ?_⟩
  · intro h
    rcases card_origin_with_except h with ⟨m2, hm2, hb2, hid⟩
    exact finish2 m2 hm2 hb2 hid
  · intro h
    rcases card_origin_liked h with ⟨m2, hm2, hb2, hid⟩
    exact finish2 m2 hm2 hb2 hid
  · intro h
    rcases card_origin_new h with ⟨m2, hm2, hb2, hid⟩
    exact finish2 m2 hm2 hb2 hid

/-- Snapshot used by the C4 witness: a single blocked master that the
requester has liked. -/
def dbBlk : DB :=
  { clients := [⟨1, "R", "B", TATTOO_TYPE_BOTH⟩]
    masters := [⟨9, "M", "B", "a", TATTOO_TYPE_BOTH, true, 0⟩]
    client_styles := [⟨1, 0⟩]
    master_styles := [⟨9, 1⟩]
    likes := [⟨1, 9⟩]
    styles := [⟨1, "S"⟩]
    master_photos := [] }

theorem claim_C4_witness :
    ((⟨9, "M", "B", "a", [], [], 0⟩ : MasterCard) ∈
        get_master_ranking_by_like_with_except dbBlk 1 10 10 TIER_ALL →
      (⟨9, "M", "B", "a", [], [], 0⟩ : MasterCard).master_id
        ≠ (⟨9, "M", "B", "a", TATTOO_TYPE_BOTH, true, 0⟩ : Master).master_id)
    ∧ ((⟨9, "M", "B", "a", [], [], 0⟩ : MasterCard) ∈
        (get_master_liked_client dbBlk 1 10 10).getD [] →
      (⟨9, "M", "B", "a", [], [], 0⟩ : MasterCard).master_id
        ≠ (⟨9, "M", "B", "a", TATTOO_TYPE_BOTH, true, 0⟩ : Master).master_id)
    ∧ ((⟨9, "M", "B", "a", [], [], 0⟩ : MasterCard) ∈
        get_master_new_registered dbBlk 0 1 10 10 →
      (⟨9, "M", "B", "a", [], [], 0⟩ : MasterCard).master_id
        ≠ (⟨9, "M", "B", "a", TATTOO_TYPE_BOTH, true, 0⟩ : Master).master_id) :=
  claim_C4_blocked_never_appears dbBlk 1 10 10 TIER_ALL 0
    ⟨9, "M", "B", "a", TATTOO_TYPE_BOTH, true, 0⟩ ⟨9, "M", "B", "a", [], [], 0⟩
    (by decide) (by decide) rfl

theorem with_except_all_eq (db : DB) (client_id : Int) (len_index len_return : Nat) :
    get_master_ranking_by_like_with_except db client_id len_index len_return TIER_ALL
      = get_master_ranking_by_like_all db client_id len_index len_return := by
  unfold get_master_ranking_by_like_with_except
  rw [if_neg (by decide), if_pos (by decide : (TIER_ALL == TIER_ALL) = true)]

theorem with_except_city_eq (db : DB) (client_id : Int) (len_index len_return : Nat) :
    get_master_ranking_by_like_with_except db client_id len_index len_return TIER_CITY
      = get_master_ranking_by_like_city db client_id len_index len_return := by
  unfold get_master_ranking_by_like_with_except
  rw [if_neg (by decide), if_neg (by decide),
    if_pos (by decide : (TIER_CITY == TIER_CITY) = true)]

theorem with_except_none_eq (db : DB) (client_id : Int) (len_index len_return : Nat) :
    get_master_ranking_by_like_with_except db client_id len_index len_return TIER_NONE
      = get_master_ranking_by_like_none db client_id len_index len_return := by
  unfold get_master_ranking_by_like_with_except
  rw [if_neg (by decide), if_neg (by decide), if_neg (by decide)]

/-- Snapshot of the worked example of §8: requester R (id 100) in Berlin,
preference Both, styles = wildcard; P1 (Berlin, Color, 3 likes),
P2 (Berlin, Monochrome, 1 like), P3 (Munich, Color, 5 likes). -/
def dbBerlin : DB :=
  { clients := [⟨100, "R", "Berlin", TATTOO_TYPE_BOTH⟩]
    masters :=
      [⟨1, "P1", "Berlin", "a", TATTOO_TYPE_COLOR, false, 0⟩,
       ⟨2, "P2", "Berlin", "b", TATTOO_TYPE_MONOCHROME, false, 0⟩,
       ⟨3, "P3", "Munich", "c", TATTOO_TYPE_COLOR, false, 0⟩]
    client_styles := [⟨100, 0⟩]
    master_styles := [⟨1, 1⟩, ⟨2, 2⟩, ⟨3, 1⟩]
    likes := [⟨201, 1⟩, ⟨202, 1⟩, ⟨203, 1⟩, ⟨204, 2⟩,
      ⟨205, 3⟩, ⟨206, 3⟩, ⟨207, 3⟩, ⟨208, 3⟩, ⟨209, 3⟩]
    styles := [⟨0, "Все стили"⟩, ⟨1, "Color style"⟩, ⟨2, "Mono style"⟩]
    master_photos := [⟨1, "p1a"⟩, ⟨1, "p1b"⟩] }

/-- C2 (amended): when the start offset is a multiple of the page size — the
shape every paged navigation step has, len_index being an end index — one
ranking call returns exactly the ids of the slice [offset, offset+pageSize)
of the fixed ranked sequence of its tier, the available remainder (possibly
empty) when the sequence is shorter; out-of-range offsets yield [] and no
error, and the §8 Berlin examples hold.  For an offset that is not a
multiple of the page size the call returns a different window — see the
counterexample. -/
theorem claim_C2_pagination_window (db : DB) (client_id : Int) (offset pageSize : Nat)
    (hp : 0 < pageSize) (hdvd : pageSize ∣ offset) :
    ((rankCandidates db client_id TIER_ALL offset pageSize).map (fun c => c.master_id)
      = (((ranked_rows_all db client_id).map (fun r => r.master_id)).drop offset).take pageSize)
    ∧ ((rankCandidates db client_id TIER_CITY offset pageSize).map (fun c => c.master_id)
      = (((ranked_rows_city db client_id).map (fun r => r.master_id)).drop offset).take pageSize)
    ∧ ((rankCandidates db client_id TIER_NONE offset pageSize).map (fun c => c.master_id)
      = (((ranked_rows_none db client_id).map (fun r => r.master_id)).drop offset).take pageSize)
    ∧ (rankCandidates dbBerlin 100 TIER_ALL 0 10).map (fun c => c.master_id) = [1, 2]
    ∧ (rankCandidates dbBerlin 100 TIER_NONE 0 10).map (fun c => c.master_id) = [3]
    ∧ rankCandidates dbBerlin 100 TIER_ALL 50 10 = [] := by
  obtain ⟨q, rfl⟩ := hdvd
  have hwin : ∀ rows : List MasterRow,
      paginate rows (pageSize * q + pageSize) pageSize
        = (rows.drop (pageSize * q)).take pageSize := by
    intro rows
    rw [Nat.mul_comm pageSize q]
    exact paginate_window rows q pageSize hp
  refine ⟨?_, ?_, ?_, by decide, by decide, by decide⟩
  · unfold rankCandidates
    rw [with_except_all_eq]
    unfold get_master_ranking_by_like_all
    rw [hwin, enrich_page_map_id, List.map_take, List.map_drop]
  · unfold rankCandidates
    rw [with_except_city_eq]
    unfold get_master_ranking_by_like_city
    rw [hwin, enrich_page_map_id, List.map_take, List.map_drop]
  · unfold rankCandidates
    rw [with_except_none_eq]
    unfold get_master_ranking_by_like_none
    rw [hwin, enrich_page_map_id, List.map_take, List.map_drop]

theorem claim_C2_witness :
    ((rankCandidates dbBerlin 100 TIER_ALL 0 10).map (fun c => c.master_id)
      = (((ranked_rows_all dbBerlin 100).map (fun r => r.master_id)).drop 0).take 10)
    ∧ ((rankCandidates dbBerlin 100 TIER_CITY 0 10).map (fun c => c.master_id)
      = (((ranked_rows_city dbBerlin 100).map (fun r => r.master_id)).drop 0).take 10)
    ∧ ((rankCandidates dbBerlin 100 TIER_NONE 0 10).map (fun c => c.master_id)
      = (((ranked_rows_none dbBerlin 100).map (fun r => r.master_id)).drop 0).take 10)
    ∧ (rankCandidates dbBerlin 100 TIER_ALL 0 10).map (fun c => c.master_id) = [1, 2]
    ∧ (rankCandidates dbBerlin 100 TIER_NONE 0 10).map (fun c => c.master_id) = [3]
    ∧ rankCandidates dbBerlin 100 TIER_ALL 50 10 = [] :=
  claim_C2_pagination_window dbBerlin 100 0 10 (by decide) ⟨0, rfl⟩

/-- Snapshot used by the C2 counterexample: three masters whose ranked order
is [1, 2, 3] (likes 2, 1, 0). -/
def dbPag : DB :=
  { clients := [⟨1, "R", "B", TATTOO_TYPE_BOTH⟩]
    masters :=
      [⟨1, "M1", "B", "a", TATTOO_TYPE_BOTH, false, 0⟩,
       ⟨2, "M2", "B", "a", TATTOO_TYPE_BOTH, false, 0⟩,
       ⟨3, "M3", "B", "a", TATTOO_TYPE_BOTH, false, 0⟩]
    client_styles := [⟨1, 0⟩]
    master_styles := [⟨1, 1⟩, ⟨2, 1⟩, ⟨3, 1⟩]
    likes := [⟨11, 1⟩, ⟨12, 1⟩, ⟨13, 2⟩]
    styles := [⟨1, "S"⟩]
    master_photos := [] }

/-- C2 counterexample: at offset 1, page size 2 (offset not a multiple of
the page size) the call returns [3], not the claimed slice [2, 3] of the
ranked sequence [1, 2, 3]. -/
theorem claim_C2_counterexample :
    (rankCandidates dbPag 1 TIER_ALL 1 2).map (fun c => c.master_id) = [3]
    ∧ (((ranked_rows_all dbPag 1).map (fun r => r.master_id)).drop 1).take 2 = [2, 3]
    ∧ ([3] : List Int) ≠ [2, 3] := by
  refine ⟨by decide, by decide, by decide⟩

theorem contains_eq_true_iff {l : List Int} {a : Int} : l.contains a = true ↔ a ∈ l := by
  simp

theorem mem_all_master_client_wildcard {db : DB} {client_id mid : Int}
    {city tattoo : String} {same_city : Bool} :
    mid ∈ all_master_client db client_id city tattoo [NUMBER_ALL_STYLES] same_city ↔
      ∃ r ∈ db.master_styles, r.master_id = mid ∧
        ∃ m ∈ db.masters, m.master_id = mid ∧ filter_type tattoo m.tattoo_type = true
          ∧ m.is_blocked = false ∧ city_scope same_city city m = true := by
  unfold all_master_client
  rw [if_pos (by decide : (([NUMBER_ALL_STYLES] : List Int) == [NUMBER_ALL_STYLES]) = true)]
  rw [List.mem_dedup]
  constructor
  · intro h
    rcases List.mem_map.mp h with ⟨r, hr, hrid⟩
    rcases List.mem_filter.mp hr with ⟨hrmem, hg⟩
    rcases List.any_eq_true.mp hg with ⟨m, hm, hcond⟩
    simp only [Bool.and_eq_true, beq_iff_eq] at hcond
    obtain ⟨⟨⟨hmid, hft⟩, hnb⟩, hcs⟩ := hcond
    exact ⟨r, hrmem, hrid,
      m, hm, by rw [hmid, hrid], hft, by simpa using hnb, hcs⟩
  · rintro ⟨r, hrmem, hrid, m, hm, hmid, hft, hnb, hcs⟩
    refine List.mem_map.mpr ⟨r, List.mem_filter.mpr ⟨hrmem, ?_⟩, hrid⟩
    refine List.any_eq_true.mpr ⟨m, hm, ?_⟩
    simp only [Bool.and_eq_true, beq_iff_eq]
    exact ⟨⟨⟨by rw [hmid, hrid], hft⟩, by simp [hnb]⟩, hcs⟩

/-- C3: for a requester whose chosen style set is exactly the wildcard, the
tier-all candidate set is exactly the set of non-blocked providers of the
requester's own city passing the type filter that hold at least one style
record, independent of which concrete styles those records name. -/
theorem claim_C3_wildcard_semantics (db : DB) (client_id mid : Int) (info : ClientInfo)
    (hwf : db.WF)
    (hinfo : get_client_info_and_styles db client_id = some info)
    (hw : info.list_styles = [NUMBER_ALL_STYLES]) :
    mid ∈ tier_all_ids db client_id ↔
      ∃ m ∈ db.masters, m.master_id = mid ∧ m.is_blocked = false
        ∧ m.city = info.city ∧ filter_type info.tattoo_type m.tattoo_type = true
        ∧ ∃ s ∈ db.master_styles, s.master_id = mid := by
  unfold tier_all_ids
  rw [hinfo]
  unfold selected_masters_all
  constructor
  · intro h
    rcases List.mem_map.mp h with ⟨m, hm, hmid⟩
    rcases List.mem_filter.mp hm with ⟨hmem, hcond⟩
    simp only [Bool.and_eq_true, beq_iff_eq] at hcond
    obtain ⟨⟨hcity, hnb⟩, hcs⟩ := hcond
    rw [contains_eq_true_iff, hw] at hcs
    rcases mem_all_master_client_wildcard.mp hcs with
      ⟨r, hrmem, hrid, m2, hm2, hm2id, hft, _, _⟩
    have hm2eq : m2 = m := List.inj_on_of_nodup_map hwf.1 hm2 hmem hm2id
    refine ⟨m, hmem, hmid, by simpa using hnb, hcity, by rw [← hm2eq]; exact hft,
      ⟨r, hrmem, by rw [hrid, hmid]⟩⟩
  · rintro ⟨m, hmem, hid, hnb, hcity, hft, s, hsmem, hsid⟩
    refine List.mem_map.mpr ⟨m, List.mem_filter.mpr ⟨hmem, ?_⟩, hid⟩
    simp only [Bool.and_eq_true, beq_iff_eq]
    refine ⟨⟨hcity, by simp [hnb]⟩, ?_⟩
    rw [contains_eq_true_iff, hw]
    refine mem_all_master_client_wildcard.mpr
      ⟨s, hsmem, by rw [hsid, ← hid], m, hmem, rfl, hft, hnb, ?_⟩
    simp [city_scope, hcity]

theorem claim_C3_witness :
    (1 : Int) ∈ tier_all_ids dbBerlin 100 ↔
      ∃ m ∈ dbBerlin.masters, m.master_id = 1 ∧ m.is_blocked = false
        ∧ m.city = (⟨100, "R", "Berlin", TATTOO_TYPE_BOTH, [0]⟩ : ClientInfo).city
        ∧ filter_type (⟨100, "R", "Berlin", TATTOO_TYPE_BOTH, [0]⟩ : ClientInfo).tattoo_type
            m.tattoo_type = true
        ∧ ∃ s ∈ dbBerlin.master_styles, s.master_id = 1 :=
  claim_C3_wildcard_semantics dbBerlin 100 1 ⟨100, "R", "Berlin", TATTOO_TYPE_BOTH, [0]⟩
    (by decide) (by decide) rfl

theorem mem_tier_filter {db : DB} {p : Master → Bool} {mid : Int}
    (h : mid ∈ (db.masters.filter p).map (fun m => m.master_id)) :
    ∃ m ∈ db.masters, p m = true ∧ m.master_id = mid := by
  rcases List.mem_map.mp h with ⟨m, hm, hid⟩
  rcases List.mem_filter.mp hm with ⟨hmem, hp⟩
  exact ⟨m, hmem, hp, hid⟩

/-- C6: for one requester over one snapshot with unique master ids, the
three tier candidate sets are pairwise disjoint: tier all and tier city
split the own-city masters by membership in the same all_master_client
subquery, and tier none lives in other cities. -/
theorem claim_C6_tiers_pairwise_disjoint (db : DB) (client_id mid : Int) (hwf : db.WF) :
    ¬(mid ∈ tier_all_ids db client_id ∧ mid ∈ tier_city_ids db client_id)
    ∧ ¬(mid ∈ tier_all_ids db client_id ∧ mid ∈ tier_none_ids db client_id)
    ∧ ¬(mid ∈ tier_city_ids db client_id ∧ mid ∈ tier_none_ids db client_id) := by
  unfold tier_all_ids tier_city_ids tier_none_ids
  cases hinfo : get_client_info_and_styles db client_id with
  | none => simp
  | some info =>
      unfold selected_masters_all selected_masters_city selected_masters_none
      refine ⟨?_, ?_, ?_⟩
      · rintro ⟨h1, h2⟩
        rcases mem_tier_filter h1 with ⟨m1, hm1, hp1, hid1⟩
        rcases mem_tier_filter h2 with ⟨m2, hm2, hp2, hid2⟩
        rw [hid1] at hp1
        rw [hid2] at hp2
        simp only [Bool.and_eq_true] at hp1 hp2
        have hc2 := hp2.2
        rw [hp1.2] at hc2
        simp at hc2
      · rintro ⟨h1, h2⟩
        rcases mem_tier_filter h1 with ⟨m1, hm1, hp1, hid1⟩
        rcases mem_tier_filter h2 with ⟨m2, hm2, hp2, hid2⟩
        have he : m1 = m2 := List.inj_on_of_nodup_map hwf.1 hm1 hm2 (hid1.trans hid2.symm)
        simp only [Bool.and_eq_true, beq_iff_eq] at hp1 hp2
        have hc2 := hp2.1.1
        rw [← he] at hc2
        rw [hp1.1.1] at hc2
        simp at hc2
      · rintro ⟨h1, h2⟩
        rcases mem_tier_filter h1 with ⟨m1, hm1, hp1, hid1⟩
        rcases mem_tier_filter h2 with ⟨m2, hm2, hp2, hid2⟩
        have he : m1 = m2 := List.inj_on_of_nodup_map hwf.1 hm1 hm2 (hid1.trans hid2.symm)
        simp only [Bool.and_eq_true, beq_iff_eq] at hp1 hp2
        have hc2 := hp2.1.1
        rw [← he] at hc2
        rw [hp1.1.1] at hc2
        simp at hc2

theorem claim_C6_witness :
    ¬((1 : Int) ∈ tier_all_ids dbBerlin 100 ∧ (1 : Int) ∈ tier_city_ids dbBerlin 100)
    ∧ ¬((1 : Int) ∈ tier_all_ids dbBerlin 100 ∧ (1 : Int) ∈ tier_none_ids dbBerlin 100)
    ∧ ¬((1 : Int) ∈ tier_city_ids dbBerlin 100 ∧ (1 : Int) ∈ tier_none_ids dbBerlin 100) :=
  claim_C6_tiers_pairwise_disjoint dbBerlin 100 1 (by decide)

/-- Failing input of C8: the requester (id 1) has liked master 10, who holds
one style row but no photo rows. -/
def dbLikedBug : DB :=
  { clients := [⟨1, "R", "B", TATTOO_TYPE_BOTH⟩]
    masters := [⟨10, "M", "B", "a", TATTOO_TYPE_BOTH, false, 0⟩]
    client_styles := [⟨1, 0⟩]
    master_styles := [⟨10, 1⟩]
    likes := [⟨1, 10⟩]
    styles := [⟨1, "S"⟩]
    master_photos := [] }

/-- C8 at the failing input: the liked-by-requester view hits the missing
photo entry (the source raises IndexError, swallowed into an implicit None)
instead of enriching with an empty list, while the batched helper
get_master_list_photos and the tier views enrich the very same photo-less
master with empty lists as the claim states. -/
theorem claim_C8_liked_enrichment_fails :
    get_master_liked_client dbLikedBug 1 1 1 = none
    ∧ get_master_list_photos dbLikedBug [10] = [(10, [])]
    ∧ (rankCandidates dbLikedBug 1 TIER_ALL 0 10).map
        (fun c => (c.master_id, c.styles, c.photo_path)) = [(10, ["S"], [])] := by
  refine ⟨by decide, by decide, by decide⟩
